import Mathlib

/-
  Shallow embedding of the stock-reconciliation logic of the
  `aphlagersaldo` repository (Next.js API routes under
  src/app/api/stock-check-stream/route.ts and src/app/api/stock-check/route.ts).

  Machine numbers are modelled as `Int` (the quantities involved are
  integer stock counts); JavaScript `x || 0` on an optional number is
  modelled as `Option.getD 0` (for these integer quantities `0 || 0 = 0`
  agrees), and `a || b` on strings is modelled by `jsOrS` / `jsOrO`
  (the empty string is falsy).  JavaScript `Map` objects are modelled as
  association lists with insert-or-overwrite (`jsMapSet`) and first-match
  lookup (`jsMapGet`).
-/

namespace Aphlagersaldo

/-- The `status` field of a ProductStockResult: `'ok' | 'warning' | 'issue'`
(the streaming route assigns all three values). -/
inductive Status where
  | ok
  | warning
  | issue
deriving DecidableEq, Repr

/-- NYCE (secondary warehouse) article record, as normalized from the
CSV upload in the routes (`articleId, onHandQty, inOrderQty,
physicalQty, stoppedQty, allocatedQty`). -/
structure NyceArticle where
  articleId : String
  onHandQty : Int
  inOrderQty : Int
  physicalQty : Int
  stoppedQty : Int
  allocatedQty : Int
deriving DecidableEq, Repr

/-- One row of the uploaded NYCE CSV data (`{ balance, inOrder }`). -/
structure NyceCsvRow where
  balance : Int
  inOrder : Int
deriving DecidableEq, Repr

/-- Google Feed product as read by the streaming route
(`Id`, `Availability`, `Title`, `Link`). -/
structure GoogleFeedProduct where
  Id : String
  Availability : String
  Title : String
  Link : String
deriving DecidableEq, Repr

/-- The `variant` object of an autocomplete product. -/
structure AutoVariant where
  sku : String
  inventoryQuantity : Int
deriving DecidableEq, Repr

/-- Autocomplete (CommerceTools) product; the code guards `p.variant &&`,
so the variant is modelled as optional. -/
structure AutocompleteProduct where
  productName : String
  url : Option String
  sku : String
  variant : Option AutoVariant
deriving DecidableEq, Repr

/-- The per-product analysis result produced by the analyzers. -/
structure ProductStockResult where
  psid : String
  productName : String
  productUrl : Option String
  googleSellable : Option Bool
  commerceToolsStock : Int
  fluentStock : Int
  nyceStock : Option NyceArticle
  status : Status
  analysis : String
  details : List String
deriving DecidableEq, Repr

/-- JavaScript `a || b` for a possibly-absent string `a` with string
fallback: absent and the empty string are falsy. -/
def jsOrS (a : Option String) (d : String) : String :=
  match a with
  | some v => if v = "" then d else v
  | none => d

/-- JavaScript `a || b` for a possibly-absent string `a` with
possibly-absent fallback (used for `... || null` chains). -/
def jsOrO (a : Option String) (b : Option String) : Option String :=
  match a with
  | some v => if v = "" then b else some v
  | none => b

/-- JavaScript `Map.prototype.set`: overwrite the entry when the key is
already present, otherwise append (iteration order preserves first
insertion). -/
def jsMapSet {α : Type} (m : List (String × α)) (k : String) (v : α) :
    List (String × α) :=
  if m.any (fun p => p.1 = k) then
    m.map (fun p => if p.1 = k then (k, v) else p)
  else
    m ++ [(k, v)]

/-- JavaScript `Map.prototype.get`: exact (case-sensitive) key lookup. -/
def jsMapGet {α : Type} (m : List (String × α)) (k : String) : Option α :=
  (m.find? (fun p => p.1 = k)).map (fun p => p.2)

/-- JavaScript `Map.prototype.has`. -/
def jsMapHas {α : Type} (m : List (String × α)) (k : String) : Bool :=
  (jsMapGet m k).isSome

/-- Whether `pat` is a leading segment of `s` (over character lists). -/
def charListStartsWith : List Char → List Char → Bool
  | _, [] => true
  | [], _ :: _ => false
  | a :: as, b :: bs => a == b && charListStartsWith as bs

/-- Whether `pat` occurs as a contiguous segment of `s` (over character
lists). -/
def charListIncludes : List Char → List Char → Bool
  | s, pat =>
    if charListStartsWith s pat then true
    else
      match s with
      | [] => false
      | _ :: as => charListIncludes as pat

/-- JavaScript `String.prototype.includes` (substring containment). -/
def strIncludes (s pat : String) : Bool :=
  charListIncludes s.toList pat.toList

/-- The NYCE-insight detail lines appended by `addNyceInsights` of the
streaming route (vs. mutating a `details` array, the produced lines are
returned and appended by the caller). -/
def addNyceInsights (nycePhysical nyceOnHand nyceInOrder nyceUnallocated
    fluentStock : Int) : List String :=
  let staging :=
    if nycePhysical > nyceOnHand ∧ nycePhysical - nyceOnHand > 10 then
      let d := nycePhysical - nyceOnHand
      [s!"STAGING BACKLOG: {d} units in physical but not onHand (being put away)"]
    else []
  let difference := nyceUnallocated - fluentStock
  let variance :=
    if difference > 10 then
      [s!"SYNC VARIANCE: NYCE unallocated ({nyceUnallocated}) is {difference} units higher than Fluent ({fluentStock})",
       "Possible issue: Check if Fluent is properly receiving stock from NYCE"]
    else if difference > 0 ∧ difference ≤ 10 then
      [s!"MINOR VARIANCE: NYCE unallocated ({nyceUnallocated}) is {difference} units higher than Fluent ({fluentStock}) - within acceptable range"]
    else if difference < 0 ∧ |difference| > 10 then
      let a := |difference|
      [s!"REVERSE VARIANCE: Fluent ({fluentStock}) is {a} units higher than NYCE unallocated ({nyceUnallocated})",
       "Note: Fluent may have sold items that NYCE has not yet processed"]
    else []
  staging ++ variance

/-- The 4-scenario matrix of `analyzeStockFull` (streaming route): the
`analysis` string, the status after the matrix (starting from `'issue'`),
and the detail lines pushed by the matched branch, from
`commerceToolsStock`, `fluentStock`, `nyceUnallocated`. -/
def fullMatrix (commerceToolsStock fluentStock nyceUnallocated : Int) :
    String × Status × List String :=
  if commerceToolsStock > 0 ∧ fluentStock > 0 ∧ nyceUnallocated > 0 then
    ("TROLIGTVIS EN SPÄRR (Probably a block)", Status.issue,
     ["All systems have stock but Google Feed shows not sellable",
      "This indicates a business logic block/restriction (affärslogik spärr)",
      "Action: Check business rules and restrictions in Google Feed logic"])
  else if commerceToolsStock = 0 ∧ fluentStock > 0 ∧ nyceUnallocated > 0 then
    ("TROLIGTVIS SYNKPROBLEM (Probably sync problem)", Status.issue,
     [s!"CommerceTools shows 0 but Fluent has {fluentStock} and NYCE unallocated has {nyceUnallocated}",
      "CommerceTools should mirror Fluent with some delay",
      "Action: Check CommerceTools sync process with Fluent"])
  else if commerceToolsStock = 0 ∧ fluentStock = 0 ∧ nyceUnallocated > 0 then
    ("LAGERSYNKPROBLEM ELLER UTSÅLT (Inventory sync problem or sold out)", Status.issue,
     [s!"NYCE has {nyceUnallocated} unallocated units but Fluent shows 0",
      "Either stock sync issue from NYCE to Fluent or items not digitally sellable",
      "Action: Check if stock is available for digital sales in NYCE"])
  else if commerceToolsStock = 0 ∧ fluentStock = 0 ∧ nyceUnallocated = 0 then
    ("EJ INLEVERAT - DATA OK (Not delivered - data consistent)", Status.ok,
     ["All systems correctly show 0 stock",
      "Product may not have been delivered to warehouse yet, but data is consistent",
      "Note: Purchasing should verify if delivery is expected"])
  else
    ("INVESTIGATE - Stock pattern not matching standard scenarios", Status.issue,
     [s!"CT: {commerceToolsStock}, Fluent: {fluentStock}, NYCE unallocated: {nyceUnallocated}"])

/-- The severity overlay of `analyzeStockFull` (streaming route), applied
after the matrix: `0 < syncDiff ≤ 10` overwrites the status with
`'warning'`; `syncDiff > 10` overwrites it with `'issue'`; otherwise the
matrix-assigned status stands. -/
def overlayStatus (base : Status) (syncDiff : Int) : Status :=
  if syncDiff > 0 ∧ syncDiff ≤ 10 then Status.warning
  else if syncDiff > 10 then Status.issue
  else base

/-- `analyzeStockFull` of the streaming route
(src/app/api/stock-check-stream/route.ts, Full Check analysis):
the 4-scenario matrix over `commerceToolsStock`, `fluentStock` and
`nyceUnallocated = onHandQty - inOrderQty`, followed by the severity
overlay on `syncDiff = nyceUnallocated - fluentStock`, then the NYCE
insight lines when an article is present. -/
def analyzeStockFull (psid productName : String) (productUrl : Option String)
    (commerceToolsStock fluentStock : Int) (nyceArticle : Option NyceArticle) :
    ProductStockResult :=
  let nyceOnHand := (nyceArticle.map (fun a => a.onHandQty)).getD 0
  let nyceInOrder := (nyceArticle.map (fun a => a.inOrderQty)).getD 0
  let nycePhysical := (nyceArticle.map (fun a => a.physicalQty)).getD 0
  let nyceUnallocated := nyceOnHand - nyceInOrder
  let m := fullMatrix commerceToolsStock fluentStock nyceUnallocated
  let syncDiff := nyceUnallocated - fluentStock
  let status := overlayStatus m.2.1 syncDiff
  let insightLines :=
    match nyceArticle with
    | some _ => addNyceInsights nycePhysical nyceOnHand nyceInOrder nyceUnallocated fluentStock
    | none => []
  { psid := psid
    productName := productName
    productUrl := productUrl
    googleSellable := some false
    commerceToolsStock := commerceToolsStock
    fluentStock := fluentStock
    nyceStock := nyceArticle
    status := status
    analysis := m.1
    details := "Google Feed: NOT SELLABLE (Full Check mode)" :: m.2.2 ++ insightLines }

/-- The if-chain of `analyzeStockSpot` (streaming route; identical logic
in src/app/api/stock-check/route.ts): the 2-source matrix over
`commerceToolsStock`, `fluentStock` and `diff = |ct - fluent|`, giving
the `analysis` string, the status, and the pushed detail lines. -/
def spotMatrix (commerceToolsStock fluentStock : Int) :
    String × Status × List String :=
  if commerceToolsStock > 0 ∧ fluentStock > 0 then
    let difference := |commerceToolsStock - fluentStock|
    if difference = 0 then
      ("PERFECTLY SYNCED - CT and Fluent match exactly", Status.ok, ([] : List String))
    else if difference ≤ 5 then
      ("IN SYNC - CT and Fluent closely aligned", Status.ok,
       [s!"Minor difference: {difference} units"])
    else
      ("SYNC VARIANCE - CT and Fluent have different stock levels", Status.issue,
       [s!"Difference: {difference} units (CT: {commerceToolsStock}, Fluent: {fluentStock})",
        "Note: Fluent is typically ahead as it releases to downstream systems with delay"])
  else if commerceToolsStock = 0 ∧ fluentStock > 0 then
    ("SYNC ISSUE - CommerceTools not updated", Status.issue,
     [s!"Fluent has {fluentStock} units but CommerceTools shows 0",
      "Action: Check CommerceTools sync process with Fluent"])
  else if commerceToolsStock > 0 ∧ fluentStock = 0 then
    ("UNEXPECTED - CT has stock but Fluent shows 0", Status.issue,
     [s!"CommerceTools shows {commerceToolsStock} but Fluent has 0",
      "This is unusual - Fluent should be ahead. Investigate data flow."])
  else
    ("NO STOCK - Both systems show 0", Status.ok,
     ["Item is out of stock in both CommerceTools and Fluent"])

/-- Wraps `spotMatrix` into the emitted ProductStockResult, mirroring the
record returned by `analyzeStockSpot`. -/
def analyzeStockSpot (psid productName : String) (productUrl : Option String)
    (commerceToolsStock fluentStock : Int) : ProductStockResult :=
  let base := spotMatrix commerceToolsStock fluentStock
  { psid := psid
    productName := productName
    productUrl := productUrl
    googleSellable := none
    commerceToolsStock := commerceToolsStock
    fluentStock := fluentStock
    nyceStock := none
    status := base.2.1
    analysis := base.1
    details := "Spot-check mode: Autocomplete (CommerceTools) and Fluent only" :: base.2.2 }

/-- One edge of a Fluent `inventoryPositions` page. -/
structure FluentEdge where
  productRef : String
  onHand : Int
  cursor : String
deriving DecidableEq, Repr

/-- One page of the cursor-paginated Fluent bulk query: the edge list and
the upstream's `pageInfo.hasNextPage` flag. -/
structure FluentPage where
  edges : List FluentEdge
  hasNextPage : Bool
deriving Repr

/-- The body of the `while (hasNextPage)` loop of `getFluentInventory`
(src/app/api/stock-check/route.ts): page `i` of the upstream response
sequence is folded into the inventory map (`productRef → onHand`, later
pages overwrite), and the loop continues while the page says
`hasNextPage`.  The loop has no page-count ceiling in the source, so the
embedding is fuelled: `none` means the loop was still running after
`fuel` pages. -/
def getFluentInventoryLoop (pages : Nat → FluentPage) :
    Nat → Nat → List (String × Int) → Option (List (String × Int))
  | 0, _, _ => none
  | fuel + 1, i, acc =>
    let page := pages i
    let acc2 := page.edges.foldl (fun m e => jsMapSet m e.productRef e.onHand) acc
    if page.hasNextPage then getFluentInventoryLoop pages fuel (i + 1) acc2
    else some acc2

/-- `getFluentInventory` (bulk paginated scan): run the pagination loop
from the first page with an empty map; `some m` iff the upstream signalled
the end of pagination within `fuel` pages. -/
def getFluentInventory (pages : Nat → FluentPage) (fuel : Nat) :
    Option (List (String × Int)) :=
  getFluentInventoryLoop pages fuel 0 []

/-- Predicate of the C5 claim: the bulk scan finishes within `c` pages on
the upstream response sequence `pages`. -/
def fluentScanTerminatesWithin (pages : Nat → FluentPage) (c : Nat) : Bool :=
  (getFluentInventory pages c).isSome

/-- `fluentMap.get(psid) || 0` as used by both POST handlers when reading
the primary-warehouse map for a key (absent keys become stock 0). -/
def fluentStockOf (m : List (String × Int)) (psid : String) : Int :=
  (jsMapGet m psid).getD 0

/-- Outcome of one per-key Fluent request inside
`getFluentInventoryForProducts`: non-ok HTTP status, a GraphQL `errors`
payload, a thrown transport error, or a successful edge list. -/
inductive FluentFetchOutcome where
  | httpError
  | gqlErrors
  | transportError
  | edges (es : List (String × Int))
deriving DecidableEq, Repr

/-- A per-key outcome that the source treats by `continue`-ing without
recording anything (non-ok response, GraphQL errors, thrown error). -/
def FluentFetchOutcome.isFailure : FluentFetchOutcome → Bool
  | .httpError => true
  | .gqlErrors => true
  | .transportError => true
  | .edges _ => false

/-- One iteration of `getFluentInventoryForProducts` of the streaming
route: emit the `onProgress` message, then one request for the PSID; on
failure the key is skipped (`continue`, nothing recorded); on success
with a non-empty edge list, `inventoryMap.set(psid,
edges[0].node.onHand)`. -/
def fluentForProductsStep (outcome : String → FluentFetchOutcome) (n : Nat)
    (st : List String × List (String × Int)) (ip : Nat × String) :
    List String × List (String × Int) :=
  let i1 := ip.1 + 1
  let psid := ip.2
  let msgs := st.1 ++ [s!"Checking Fluent for {psid} ({i1}/{n})..."]
  match outcome psid with
  | .edges (e :: _) => (msgs, jsMapSet st.2 psid e.2)
  | _ => (msgs, st.2)

/-- The loop of `getFluentInventoryForProducts` over the enumerated PSID
list, then the closing `onProgress` message. -/
def getFluentInventoryForProducts (outcome : String → FluentFetchOutcome)
    (psids : List String) : List String × List (String × Int) :=
  let n := psids.length
  let r := psids.enum.foldl (fluentForProductsStep outcome n) ([], [])
  let found := r.2.length
  (r.1 ++ [s!"Fluent check complete: found {found}/{n} items"], r.2)

/-- The summary payload sent by full mode (`totalGoogleFeedItems`,
`notSellableCount`, `nyceCsvCount`, `overlapCount`,
`itemsWithUnallocatedStock`). -/
structure SummaryPayload where
  totalGoogleFeedItems : Nat
  notSellableCount : Nat
  nyceCsvCount : Nat
  overlapCount : Nat
  itemsWithUnallocatedStock : Nat
deriving DecidableEq, Repr

/-- One framed message sent over the event stream by `sendEvent`,
discriminated by its `type` field.  The final `complete` of full mode's
early exits carries a summary object; the shared terminal `complete`
does not. -/
inductive SEvent where
  | progress (message : String) (current total : Nat)
  | result (r : ProductStockResult)
  | errorEv (message : String)
  | summaryEv (s : SummaryPayload)
  | complete (results : List ProductStockResult) (errors : List String)
      (total : Nat) (summary : Option SummaryPayload)
deriving DecidableEq, Repr

/-- Whether an event is the `complete` terminal event. -/
def SEvent.isComplete : SEvent → Bool
  | .complete _ _ _ _ => true
  | _ => false

/-- Whether an event is an `error` event. -/
def SEvent.isErrorEvent : SEvent → Bool
  | .errorEv _ => true
  | _ => false

/-- Number of `error` events in a trace. -/
def countErrorEvents (t : List SEvent) : Nat :=
  (t.filter (fun e => e.isErrorEvent)).length

/-- Number of `complete` events in a trace. -/
def countCompleteEvents (t : List SEvent) : Nat :=
  (t.filter (fun e => e.isComplete)).length

/-- The events emitted by the outer `catch` of the stream handler for a
thrown error message: the `Fatal error:` event, plus the network-hint
event when the message contains `network` or `fetch`; then the stream is
closed. -/
def fatalTail (m : String) : List SEvent :=
  SEvent.errorEv s!"Fatal error: {m}" ::
    (if strIncludes m "network" || strIncludes m "fetch" then
      [SEvent.errorEv "Network error - check that all API endpoints are accessible and environment variables are correctly set"]
     else [])

/-- Step 3 of full mode: the NYCE CSV table turned into the
`nyceDataMap` (`onHandQty = balance`, `inOrderQty = inOrder`,
`physicalQty = balance`, `stoppedQty = 0`, `allocatedQty = 0`). -/
def buildNyceMap (table : List (String × NyceCsvRow)) :
    List (String × NyceArticle) :=
  table.foldl
    (fun m kv =>
      jsMapSet m kv.1
        { articleId := kv.1
          onHandQty := kv.2.balance
          inOrderQty := kv.2.inOrder
          physicalQty := kv.2.balance
          stoppedQty := 0
          allocatedQty := 0 })
    []

/-- The `googleProductMap` of full mode (`Id → product`). -/
def buildGoogleMap (ps : List GoogleFeedProduct) :
    List (String × GoogleFeedProduct) :=
  ps.foldl (fun m p => jsMapSet m p.Id p) []

/-- Abstracted upstream world for one full-mode run of the streaming
POST handler: the parsed request body, whether the feed URL environment
variable is set, and the outcome of each upstream interaction
(`Except.error` models a thrown/failed call). -/
structure FullEnv where
  psidsValid : Bool
  psids : List String
  nyceCsvData : Option (List (String × NyceCsvRow))
  feedUrl : Option String
  feedFetch : Except String (List GoogleFeedProduct)
  auth : Except String Unit
  itemFluent : String → Except String Int
  itemAuto : String → Except String (List AutocompleteProduct)

/-- Mutable state of the full-mode per-item loop: the counters, the
accumulated results and error strings, and the events emitted so far. -/
structure FullLoopState where
  processedCount : Nat
  skippedCount : Nat
  itemsWithUnallocatedStock : Nat
  results : List ProductStockResult
  errors : List String
  events : List SEvent

/-- One iteration of the full-mode loop over `notSellablePsids` (with
index, mirroring `for (let i = 0; ...)`): skip-and-count keys missing
from the NYCE map, otherwise fetch Fluent stock (a thrown fetch fails
the item), fetch autocomplete (failure emits an error event and
defaults the catalog stock to 0), then analyze and emit the result. -/
def processFullItem (env : FullEnv) (nsLen : Nat)
    (nyceDataMap : List (String × NyceArticle))
    (googleProductMap : List (String × GoogleFeedProduct))
    (st : FullLoopState) (ip : Nat × String) : FullLoopState :=
  let i1 := ip.1 + 1
  let psid := ip.2
  if ¬ jsMapHas nyceDataMap psid then
    { st with
      skippedCount := st.skippedCount + 1
      events := st.events ++
        [SEvent.progress s!"{psid} not in NYCE CSV - skipping ({i1}/{nsLen})" i1 nsLen] }
  else
    let st1 :=
      { st with
        processedCount := st.processedCount + 1
        events := st.events ++
          [SEvent.progress s!"Checking {psid} - NOT sellable ({i1}/{nsLen})..." i1 nsLen] }
    match env.itemFluent psid with
    | .error em =>
      let msg := s!"Failed to process PSID {psid}: {em}"
      { st1 with
        errors := st1.errors ++ [msg]
        events := st1.events ++ [SEvent.errorEv msg] }
    | .ok fluentStock =>
      let autoOut :=
        match env.itemAuto psid with
        | .error am =>
          ([SEvent.errorEv s!"Autocomplete API failed for {psid}: {am}"],
           (none : Option AutocompleteProduct))
        | .ok prods =>
          ([],
           prods.find? (fun p =>
             match p.variant with
             | some v => v.sku = psid
             | none => false))
      let matched := autoOut.2
      let commerceToolsStock :=
        ((matched.bind (fun p => p.variant)).map (fun v => v.inventoryQuantity)).getD 0
      let googleProduct := jsMapGet googleProductMap psid
      let productName :=
        jsOrS (googleProduct.map (fun p => p.Title))
          (jsOrS (matched.map (fun p => p.productName)) "Unknown Product")
      let productUrl :=
        jsOrO (googleProduct.map (fun p => p.Link))
          (jsOrO (matched.bind (fun p => p.url)) none)
      let nyceArticle := jsMapGet nyceDataMap psid
      let unalloc :=
        match nyceArticle with
        | some a =>
          if a.onHandQty - a.inOrderQty > 0 then st1.itemsWithUnallocatedStock + 1
          else st1.itemsWithUnallocatedStock
        | none => st1.itemsWithUnallocatedStock
      let r := analyzeStockFull psid productName productUrl commerceToolsStock
        fluentStock nyceArticle
      { st1 with
        itemsWithUnallocatedStock := unalloc
        results := st1.results ++ [r]
        events := st1.events ++ autoOut.1 ++ [SEvent.result r] }

/-- The full-mode per-item loop over the enumerated not-sellable PSIDs,
started from the zeroed state. -/
def runFullLoop (env : FullEnv) (nsLen : Nat)
    (nyceDataMap : List (String × NyceArticle))
    (googleProductMap : List (String × GoogleFeedProduct))
    (notSellablePsids : List String) : FullLoopState :=
  notSellablePsids.enum.foldl
    (processFullItem env nsLen nyceDataMap googleProductMap)
    { processedCount := 0, skippedCount := 0, itemsWithUnallocatedStock := 0
      results := [], errors := [], events := [] }

/-- The complete event trace of the streaming POST handler for a
full-mode request (`checkMode = 'full'`), following the source's control
flow: validation, feed fetch, not-sellable filter, NYCE map, Fluent
auth, the per-item loop, and one of the terminating exits (each exit
closes the stream right after its last event). -/
def fullModeTrace (env : FullEnv) : List SEvent :=
  if env.psidsValid = false then [SEvent.errorEv "Invalid PSIDs provided"]
  else
    match env.nyceCsvData with
    | none => [SEvent.errorEv "Full Check requires NYCE CSV data"]
    | some table =>
      let nPs := env.psids.length
      let e0 := [SEvent.progress s!"Starting full check for {nPs} items..." 0 nPs,
                 SEvent.progress "Fetching Google Feed..." 0 1]
      match env.feedUrl with
      | none =>
        let m := "NEXT_PUBLIC_GOOGLE_FEED_URL is not configured"
        e0 ++ [SEvent.errorEv m] ++ fatalTail m
      | some url =>
        match env.feedFetch with
        | .error m =>
          let errorMsg := s!"Failed to fetch Google Feed: {m}"
          e0 ++ [SEvent.errorEv errorMsg, SEvent.errorEv s!"Google Feed URL: {url}"] ++
            fatalTail errorMsg
        | .ok googleProducts =>
          let gLen := googleProducts.length
          let e1 := e0 ++ [SEvent.progress s!"Google Feed loaded: {gLen} total products" 0 1]
          let notSellableProducts :=
            googleProducts.filter (fun p => p.Availability = "out_of_stock")
          let notSellablePsids := notSellableProducts.map (fun p => p.Id)
          let googleProductMap := buildGoogleMap googleProducts
          let nsLen := notSellableProducts.length
          let e2 := e1 ++
            [SEvent.progress s!"Found {nsLen} not-sellable items in Google Feed" 0 nsLen]
          if notSellableProducts.length = 0 then
            e2 ++ [SEvent.progress "No out-of-stock items found in Google Feed. Nothing to check!" 0 0,
                   SEvent.complete [] [] 0 none]
          else
            let nyceDataMap := buildNyceMap table
            let nyLen := nyceDataMap.length
            let e3 := e2 ++
              [SEvent.progress s!"NYCE data loaded: {nyLen} items from CSV" 0 nsLen,
               SEvent.progress "Getting Fluent authentication..." 0 nsLen]
            match env.auth with
            | .error m =>
              let errorMsg := s!"Fluent authentication failed: {m}"
              e3 ++ [SEvent.errorEv errorMsg,
                     SEvent.errorEv "Check FLUENT_ENDPOINT, FLUENT_USERNAME, FLUENT_PASSWORD, FLUENT_CLIENT_ID, FLUENT_CLIENT_SECRET environment variables"] ++
                fatalTail errorMsg
            | .ok _ =>
              let itemsToProcess :=
                notSellablePsids.filter (fun psid => jsMapHas nyceDataMap psid)
              let nItems := itemsToProcess.length
              let e4 := e3 ++
                [SEvent.progress "Fluent authentication successful" 0 nsLen,
                 SEvent.progress s!"Processing {nItems} items that are both out-of-stock AND in NYCE..." 0 nsLen]
              if itemsToProcess.length = 0 then
                e4 ++ [SEvent.progress "No out-of-stock items found in NYCE CSV. Check complete." 0 0,
                       SEvent.complete [] [] 0
                         (some ⟨gLen, nsLen, nyLen, 0, 0⟩)]
              else
                let fin := runFullLoop env nsLen nyceDataMap googleProductMap notSellablePsids
                e4 ++ fin.events ++
                  [SEvent.progress s!"Full Check complete: {nsLen} not-sellable in Google Feed, {fin.processedCount} checked ({fin.skippedCount} not in NYCE CSV)" nsLen nsLen,
                   SEvent.summaryEv ⟨gLen, nsLen, nyLen, nItems, fin.itemsWithUnallocatedStock⟩,
                   SEvent.complete fin.results fin.errors fin.results.length none]

/-- Abstracted upstream world for one spot-mode run of the streaming
POST handler. -/
structure SpotEnv where
  psidsValid : Bool
  psids : List String
  auth : Except String Unit
  fluentOutcome : String → FluentFetchOutcome
  auto : String → Except String (List AutocompleteProduct)

/-- Mutable state of the spot-mode per-item loop. -/
structure SpotLoopState where
  results : List ProductStockResult
  errors : List String
  events : List SEvent

/-- One iteration of the spot-mode loop: the autocomplete lookup (a
thrown call fails the item and records an error), the Fluent map read
with `|| 0` defaulting, the 2-source analysis, and the result event. -/
def processSpotItem (env : SpotEnv) (fluentMap : List (String × Int))
    (n : Nat) (st : SpotLoopState) (ip : Nat × String) : SpotLoopState :=
  let i1 := ip.1 + 1
  let psid := ip.2
  let st1 :=
    { st with events := st.events ++ [SEvent.progress s!"Checking {psid} ({i1}/{n})..." i1 n] }
  match env.auto psid with
  | .error _ =>
    let msg := s!"Failed to process PSID {psid}"
    { st1 with errors := st1.errors ++ [msg], events := st1.events ++ [SEvent.errorEv msg] }
  | .ok prods =>
    let matched := prods.find? (fun p =>
      match p.variant with
      | some v => v.sku = psid
      | none => false)
    let productName := jsOrS (matched.map (fun p => p.productName)) "Unknown Product"
    let productUrl := jsOrO (matched.bind (fun p => p.url)) none
    let commerceToolsStock :=
      ((matched.bind (fun p => p.variant)).map (fun v => v.inventoryQuantity)).getD 0
    let fluentStock := fluentStockOf fluentMap psid
    let r := analyzeStockSpot psid productName productUrl commerceToolsStock fluentStock
    { st1 with results := st1.results ++ [r], events := st1.events ++ [SEvent.result r] }

/-- The complete event trace of the streaming POST handler for a
spot-mode request (`checkMode = 'spot'`): validation, Fluent auth (a
failure propagates to the outer catch), the per-key Fluent inventory
fetch with its progress callbacks, the per-item loop, and the terminal
`complete` event. -/
def spotModeTrace (env : SpotEnv) : List SEvent :=
  if env.psidsValid = false then [SEvent.errorEv "Invalid PSIDs provided"]
  else
    let n := env.psids.length
    let e0 := [SEvent.progress s!"Starting spot check for {n} items..." 0 n,
               SEvent.progress "Getting Fluent authentication token..." 0 n]
    match env.auth with
    | .error m => e0 ++ fatalTail m
    | .ok _ =>
      let e1 := e0 ++ [SEvent.progress "Fetching Fluent inventory..." 0 n]
      let fl := getFluentInventoryForProducts env.fluentOutcome env.psids
      let e2 := e1 ++ fl.1.map (fun msg => SEvent.progress msg 0 n)
      let fin := env.psids.enum.foldl (processSpotItem env fl.2 n)
        { results := [], errors := [], events := [] }
      e2 ++ fin.events ++
        [SEvent.complete fin.results fin.errors fin.results.length none]

/-! Helper lemmas linking the analyzer records to their matrix and
overlay components. -/

theorem analyzeStockFull_analysis_some (psid pn : String) (url : Option String)
    (ct f : Int) (a : NyceArticle) :
    (analyzeStockFull psid pn url ct f (some a)).analysis
      = (fullMatrix ct f (a.onHandQty - a.inOrderQty)).1 := rfl

theorem analyzeStockFull_status_some (psid pn : String) (url : Option String)
    (ct f : Int) (a : NyceArticle) :
    (analyzeStockFull psid pn url ct f (some a)).status
      = overlayStatus (fullMatrix ct f (a.onHandQty - a.inOrderQty)).2.1
          ((a.onHandQty - a.inOrderQty) - f) := rfl

theorem analyzeStockSpot_fields (psid pn : String) (url : Option String)
    (ct f : Int) :
    (analyzeStockSpot psid pn url ct f).analysis = (spotMatrix ct f).1
      ∧ (analyzeStockSpot psid pn url ct f).status = (spotMatrix ct f).2.1
      ∧ (analyzeStockSpot psid pn url ct f).details
          = "Spot-check mode: Autocomplete (CommerceTools) and Fluent only"
              :: (spotMatrix ct f).2.2 :=
  ⟨rfl, rfl, rfl⟩

/-- C3: in full mode the category is assigned by the fixed-order
4-source matrix over the signs of `catalogQuantity` (`ct`),
`primaryOnHand` (`f`) and `secondaryUnallocated = onHandQty - inOrderQty`
(`u`), first match wins: (>0,>0,>0) → probable block with base severity
issue; (=0,>0,>0) → probable sync problem; (=0,=0,>0) → inventory sync
problem or sold out; (=0,=0,=0) → consistent at zero with severity ok;
anything else → the INVESTIGATE catch-all. -/
theorem full_matrix_classification (psid pn : String) (url : Option String)
    (ct f : Int) (a : NyceArticle) :
    ((0:Int) < ct → (0:Int) < f → (0:Int) < a.onHandQty - a.inOrderQty →
      (analyzeStockFull psid pn url ct f (some a)).analysis
          = "TROLIGTVIS EN SPÄRR (Probably a block)"
        ∧ (fullMatrix ct f (a.onHandQty - a.inOrderQty)).2.1 = Status.issue)
    ∧ (ct = 0 → (0:Int) < f → (0:Int) < a.onHandQty - a.inOrderQty →
      (analyzeStockFull psid pn url ct f (some a)).analysis
          = "TROLIGTVIS SYNKPROBLEM (Probably sync problem)")
    ∧ (ct = 0 → f = 0 → (0:Int) < a.onHandQty - a.inOrderQty →
      (analyzeStockFull psid pn url ct f (some a)).analysis
          = "LAGERSYNKPROBLEM ELLER UTSÅLT (Inventory sync problem or sold out)")
    ∧ (ct = 0 → f = 0 → a.onHandQty - a.inOrderQty = 0 →
      (analyzeStockFull psid pn url ct f (some a)).analysis
          = "EJ INLEVERAT - DATA OK (Not delivered - data consistent)"
        ∧ (analyzeStockFull psid pn url ct f (some a)).status = Status.ok)
    ∧ (¬ (ct > 0 ∧ f > 0 ∧ a.onHandQty - a.inOrderQty > 0) →
       ¬ (ct = 0 ∧ f > 0 ∧ a.onHandQty - a.inOrderQty > 0) →
       ¬ (ct = 0 ∧ f = 0 ∧ a.onHandQty - a.inOrderQty > 0) →
       ¬ (ct = 0 ∧ f = 0 ∧ a.onHandQty - a.inOrderQty = 0) →
      (analyzeStockFull psid pn url ct f (some a)).analysis
          = "INVESTIGATE - Stock pattern not matching standard scenarios") := by
  set u := a.onHandQty - a.inOrderQty with hu
  refine ⟨?_, ?_, ?_, ?_, ?_⟩
  · intro h1 h2 h3
    rw [analyzeStockFull_analysis_some, ← hu]
    unfold fullMatrix
    rw [if_pos ⟨h1, h2, h3⟩]
    exact ⟨rfl, rfl⟩
  · intro h1 h2 h3
    rw [analyzeStockFull_analysis_some, ← hu]
    unfold fullMatrix
    rw [if_neg (by omega), if_pos ⟨h1, h2, h3⟩]
  · intro h1 h2 h3
    rw [analyzeStockFull_analysis_some, ← hu]
    unfold fullMatrix
    rw [if_neg (by omega), if_neg (by omega), if_pos ⟨h1, h2, h3⟩]
  · intro h1 h2 h3
    constructor
    · rw [analyzeStockFull_analysis_some, ← hu]
      unfold fullMatrix
      rw [if_neg (by omega), if_neg (by omega), if_neg (by omega),
        if_pos ⟨h1, h2, h3⟩]
    · rw [analyzeStockFull_status_some, ← hu]
      unfold fullMatrix
      rw [if_neg (by omega), if_neg (by omega), if_neg (by omega),
        if_pos ⟨h1, h2, h3⟩]
      unfold overlayStatus
      rw [if_neg (by omega), if_neg (by omega)]
  · intro h1 h2 h3 h4
    rw [analyzeStockFull_analysis_some, ← hu]
    unfold fullMatrix
    rw [if_neg h1, if_neg h2, if_neg h3, if_neg h4]

/-- Witness for C3: a concrete all-positive snapshot lands in the
business-rule-block category. -/
theorem full_matrix_classification_witness :
    (analyzeStockFull "A" "N" none 5 4 (some ⟨"A", 3, 1, 3, 0, 0⟩)).analysis
      = "TROLIGTVIS EN SPÄRR (Probably a block)" :=
  ((full_matrix_classification "A" "N" none 5 4 ⟨"A", 3, 1, 3, 0, 0⟩).1
    (by decide) (by decide) (by decide)).1

/-- C9: whenever `syncDiff = secondaryUnallocated - primaryOnHand`
exceeds 10, the final severity of the full-mode result is issue,
whatever the matrix assigned. -/
theorem syncdiff_overlay_issue (psid pn : String) (url : Option String)
    (ct f : Int) (a : NyceArticle)
    (h : (a.onHandQty - a.inOrderQty) - f > 10) :
    (analyzeStockFull psid pn url ct f (some a)).status = Status.issue := by
  rw [analyzeStockFull_status_some]
  unfold overlayStatus
  rw [if_neg (by omega), if_pos (by omega)]

/-- Witness for C9: a concrete snapshot with `syncDiff = 15`. -/
theorem syncdiff_overlay_issue_witness :
    ((⟨"A", 20, 0, 20, 0, 0⟩ : NyceArticle).onHandQty
        - (⟨"A", 20, 0, 20, 0, 0⟩ : NyceArticle).inOrderQty) - 5 > 10
    ∧ (analyzeStockFull "A" "N" none 0 5 (some ⟨"A", 20, 0, 20, 0, 0⟩)).status
        = Status.issue :=
  ⟨by decide, syncdiff_overlay_issue "A" "N" none 0 5 ⟨"A", 20, 0, 20, 0, 0⟩ (by decide)⟩

/-- C10: with catalog 0, primary 0 and a negative secondary unallocated
quantity, the full-mode classifier falls through to the INVESTIGATE
catch-all with severity issue, not the zero/zero/zero ok case. -/
theorem negative_unallocated_investigate (psid pn : String)
    (url : Option String) (ct f : Int) (a : NyceArticle)
    (hct : ct = 0) (hf : f = 0) (hu : a.onHandQty - a.inOrderQty < 0) :
    (analyzeStockFull psid pn url ct f (some a)).analysis
        = "INVESTIGATE - Stock pattern not matching standard scenarios"
      ∧ (analyzeStockFull psid pn url ct f (some a)).status = Status.issue := by
  constructor
  · rw [analyzeStockFull_analysis_some]
    unfold fullMatrix
    rw [if_neg (by omega), if_neg (by omega), if_neg (by omega), if_neg (by omega)]
  · rw [analyzeStockFull_status_some]
    unfold fullMatrix
    rw [if_neg (by omega), if_neg (by omega), if_neg (by omega), if_neg (by omega)]
    unfold overlayStatus
    rw [if_neg (by omega), if_neg (by omega)]

/-- Witness for C10: onHand 0, inOrder 5 gives unallocated -5. -/
theorem negative_unallocated_investigate_witness :
    (0:Int) = 0 ∧ (0:Int) = 0
    ∧ ((⟨"A", 0, 5, 0, 0, 0⟩ : NyceArticle).onHandQty
        - (⟨"A", 0, 5, 0, 0, 0⟩ : NyceArticle).inOrderQty) < 0
    ∧ (analyzeStockFull "A" "N" none 0 0 (some ⟨"A", 0, 5, 0, 0, 0⟩)).analysis
        = "INVESTIGATE - Stock pattern not matching standard scenarios" :=
  ⟨rfl, rfl, by decide,
   (negative_unallocated_investigate "A" "N" none 0 0 ⟨"A", 0, 5, 0, 0, 0⟩
     rfl rfl (by decide)).1⟩

/-- Counterexample to C1: a snapshot whose matrix category carries base
severity issue (all three signals positive) but with `syncDiff = 1`,
where the final severity is warning, not issue: the overlay lowers the
severity below the matrix floor. -/
theorem overlay_lowers_issue_cex :
    (fullMatrix 1 1 2).2.1 = Status.issue
    ∧ (0:Int) < ((⟨"P1", 2, 0, 2, 0, 0⟩ : NyceArticle).onHandQty
        - (⟨"P1", 2, 0, 2, 0, 0⟩ : NyceArticle).inOrderQty) - 1
    ∧ ((⟨"P1", 2, 0, 2, 0, 0⟩ : NyceArticle).onHandQty
        - (⟨"P1", 2, 0, 2, 0, 0⟩ : NyceArticle).inOrderQty) - 1 ≤ 10
    ∧ (analyzeStockFull "P1" "N" none 1 1 (some ⟨"P1", 2, 0, 2, 0, 0⟩)).status
        ≠ Status.issue
    ∧ (analyzeStockFull "P1" "N" none 1 1 (some ⟨"P1", 2, 0, 2, 0, 0⟩)).status
        = Status.warning := by
  refine ⟨rfl, by decide, by decide, ?_, ?_⟩ <;> decide

/-- C1 as amended: the severity overlay is an unconditional overwrite,
not a raise-only clamp — whenever `0 < syncDiff ≤ 10` the final severity
is warning, even when the matrix-assigned base severity was issue. -/
theorem overlay_overwrites_to_warning (psid pn : String)
    (url : Option String) (ct f : Int) (a : NyceArticle)
    (h1 : (0:Int) < (a.onHandQty - a.inOrderQty) - f)
    (h2 : (a.onHandQty - a.inOrderQty) - f ≤ 10) :
    (analyzeStockFull psid pn url ct f (some a)).status = Status.warning := by
  rw [analyzeStockFull_status_some]
  unfold overlayStatus
  rw [if_pos ⟨h1, h2⟩]

/-- Witness for the amended C1 at the counterexample input. -/
theorem overlay_overwrites_to_warning_witness :
    (0:Int) < ((⟨"P1", 2, 0, 2, 0, 0⟩ : NyceArticle).onHandQty
        - (⟨"P1", 2, 0, 2, 0, 0⟩ : NyceArticle).inOrderQty) - 1
    ∧ (analyzeStockFull "P1" "N" none 1 1 (some ⟨"P1", 2, 0, 2, 0, 0⟩)).status
        = Status.warning :=
  ⟨by decide,
   overlay_overwrites_to_warning "P1" "N" none 1 1 ⟨"P1", 2, 0, 2, 0, 0⟩
     (by decide) (by decide)⟩

/-- C4: the spot-mode 2-source matrix over `ct`, `f` and
`d = |ct - f|`: both positive with d = 0 → perfectly synced (ok);
0 < d ≤ 5 → in sync (ok); d > 5 → sync variance (issue); ct = 0 < f →
catalog not updated (issue) with the "Fluent has N units but
CommerceTools shows 0" note; ct > 0 = f → catalog ahead (issue);
both 0 → no stock (ok). -/
theorem spot_matrix_classification (psid pn : String) (url : Option String)
    (ct f : Int) :
    ((0:Int) < ct → (0:Int) < f → |ct - f| = 0 →
      (analyzeStockSpot psid pn url ct f).analysis
          = "PERFECTLY SYNCED - CT and Fluent match exactly"
        ∧ (analyzeStockSpot psid pn url ct f).status = Status.ok)
    ∧ ((0:Int) < ct → (0:Int) < f → (0:Int) < |ct - f| → |ct - f| ≤ 5 →
      (analyzeStockSpot psid pn url ct f).analysis
          = "IN SYNC - CT and Fluent closely aligned"
        ∧ (analyzeStockSpot psid pn url ct f).status = Status.ok)
    ∧ ((0:Int) < ct → (0:Int) < f → (5:Int) < |ct - f| →
      (analyzeStockSpot psid pn url ct f).analysis
          = "SYNC VARIANCE - CT and Fluent have different stock levels"
        ∧ (analyzeStockSpot psid pn url ct f).status = Status.issue)
    ∧ (ct = 0 → (0:Int) < f →
      (analyzeStockSpot psid pn url ct f).analysis
          = "SYNC ISSUE - CommerceTools not updated"
        ∧ (analyzeStockSpot psid pn url ct f).status = Status.issue
        ∧ s!"Fluent has {f} units but CommerceTools shows 0"
            ∈ (analyzeStockSpot psid pn url ct f).details)
    ∧ ((0:Int) < ct → f = 0 →
      (analyzeStockSpot psid pn url ct f).analysis
          = "UNEXPECTED - CT has stock but Fluent shows 0"
        ∧ (analyzeStockSpot psid pn url ct f).status = Status.issue)
    ∧ (ct = 0 → f = 0 →
      (analyzeStockSpot psid pn url ct f).analysis
          = "NO STOCK - Both systems show 0"
        ∧ (analyzeStockSpot psid pn url ct f).status = Status.ok) := by
  obtain ⟨ha, hs, hd⟩ := analyzeStockSpot_fields psid pn url ct f
  refine ⟨?_, ?_, ?_, ?_, ?_, ?_⟩
  · intro h1 h2 h3
    rw [ha, hs]
    unfold spotMatrix
    rw [if_pos ⟨h1, h2⟩]
    simp only
    rw [if_pos h3]
    exact ⟨rfl, rfl⟩
  · intro h1 h2 h3 h4
    rw [ha, hs]
    unfold spotMatrix
    rw [if_pos ⟨h1, h2⟩]
    simp only
    rw [if_neg (by omega), if_pos h4]
    exact ⟨rfl, rfl⟩
  · intro h1 h2 h3
    rw [ha, hs]
    unfold spotMatrix
    rw [if_pos ⟨h1, h2⟩]
    simp only
    rw [if_neg (by omega), if_neg (by omega)]
    exact ⟨rfl, rfl⟩
  · intro h1 h2
    rw [ha, hs, hd]
    unfold spotMatrix
    rw [if_neg (by omega), if_pos ⟨h1, h2⟩]
    refine ⟨rfl, rfl, ?_⟩
    simp
  · intro h1 h2
    rw [ha, hs]
    unfold spotMatrix
    rw [if_neg (by omega), if_neg (by omega), if_pos ⟨h1, h2⟩]
    exact ⟨rfl, rfl⟩
  · intro h1 h2
    rw [ha, hs]
    unfold spotMatrix
    rw [if_neg (by omega), if_neg (by omega), if_neg (by omega)]
    exact ⟨rfl, rfl⟩

/-- Witness for C4: the spec's scenario catalog = 0, primary = 50 gives
the catalog-not-updated category, severity issue, and the exact note. -/
theorem spot_matrix_classification_witness :
    (analyzeStockSpot "A" "N" none 0 50).analysis
        = "SYNC ISSUE - CommerceTools not updated"
    ∧ (analyzeStockSpot "A" "N" none 0 50).status = Status.issue
    ∧ "Fluent has 50 units but CommerceTools shows 0"
        ∈ (analyzeStockSpot "A" "N" none 0 50).details :=
  (spot_matrix_classification "A" "N" none 0 50).2.2.2.1 rfl (by decide)

/-! Pagination of the bulk primary-inventory scan (C5) and key matching
against its result map (C6). -/

theorem getFluentInventoryLoop_allTrue_none (fuel i : Nat)
    (acc : List (String × Int)) :
    getFluentInventoryLoop (fun _ => ⟨[], true⟩) fuel i acc = none := by
  induction fuel generalizing i acc with
  | zero => rfl
  | succ n ih => simpa [getFluentInventoryLoop] using ih (i + 1) acc

/-- Counterexample to C5: there is no fixed page-count ceiling within
which the bulk scan terminates for every upstream response sequence —
against the upstream that always reports `hasNextPage = true`, the
`while (hasNextPage)` loop is still running after any number of pages. -/
theorem bulk_scan_no_page_ceiling_cex :
    ¬ ∃ c : Nat, ∀ pages : Nat → FluentPage,
      fluentScanTerminatesWithin pages c = true := by
  rintro ⟨c, h⟩
  have h2 := h (fun _ => ⟨[], true⟩)
  rw [fluentScanTerminatesWithin, getFluentInventory,
    getFluentInventoryLoop_allTrue_none] at h2
  exact Bool.noConfusion h2

theorem getFluentInventoryLoop_some_of_stop (pages : Nat → FluentPage) :
    ∀ (fuel i : Nat) (acc : List (String × Int)),
      (∃ j, j < fuel ∧ (pages (i + j)).hasNextPage = false) →
      (getFluentInventoryLoop pages fuel i acc).isSome = true := by
  intro fuel
  induction fuel with
  | zero =>
    intro i acc h
    obtain ⟨j, hj, _⟩ := h
    exact absurd hj (by omega)
  | succ n ih =>
    intro i acc h
    obtain ⟨j, hj, hfalse⟩ := h
    rw [getFluentInventoryLoop]
    by_cases hp : (pages i).hasNextPage
    · rw [if_pos hp]
      apply ih
      match j, hfalse with
      | 0, hfalse => rw [Nat.add_zero] at hfalse; rw [hfalse] at hp; exact absurd hp (by simp)
      | j' + 1, hfalse =>
        exact ⟨j', by omega, by rw [show i + 1 + j' = i + (j' + 1) by omega]; exact hfalse⟩
    · rw [if_neg hp]
      rfl

/-- C5 as amended: the bulk paginated scan has no page-count ceiling —
it terminates exactly when the upstream eventually signals
`hasNextPage = false`; if page `n` does so, the scan finishes within
`n + 1` pages (and, per the counterexample, an upstream that never does
keeps it looping). -/
theorem bulk_scan_terminates_on_last_page (pages : Nat → FluentPage) (n : Nat)
    (h : (pages n).hasNextPage = false) :
    fluentScanTerminatesWithin pages (n + 1) = true := by
  rw [fluentScanTerminatesWithin, getFluentInventory]
  exact getFluentInventoryLoop_some_of_stop pages (n + 1) 0 []
    ⟨n, Nat.lt_succ_self n, by simpa using h⟩

/-- Witness for the amended C5: a single page that ends pagination. -/
theorem bulk_scan_terminates_on_last_page_witness :
    ((fun _ => (⟨[], false⟩ : FluentPage)) 0).hasNextPage = false
    ∧ fluentScanTerminatesWithin (fun _ => ⟨[], false⟩) 1 = true :=
  ⟨rfl, bulk_scan_terminates_on_last_page (fun _ => ⟨[], false⟩) 0 rfl⟩

/-- The upstream page sequence for the C6 counterexample: one final page
whose single node has `productRef = "abc123"` and `onHand = 7`. -/
def lowerCasePages : Nat → FluentPage :=
  fun _ => ⟨[⟨"abc123", 7, "c1"⟩], false⟩

/-- Counterexample to C6: matching is not case-insensitive — the bulk
scan of a page with `productRef = "abc123", onHand = 7` yields a map in
which the target key `"ABC123"` finds nothing (and the caller's `|| 0`
turns that into stock 0, not 7). -/
theorem case_insensitive_match_cex :
    getFluentInventory lowerCasePages 1 = some [("abc123", 7)]
    ∧ jsMapGet [("abc123", (7:Int))] "ABC123" = none
    ∧ fluentStockOf [("abc123", (7:Int))] "ABC123" = 0
    ∧ (0:Int) ≠ 7
    ∧ jsMapGet [("abc123", (7:Int))] "abc123" = some 7 := by
  refine ⟨?_, ?_, ?_, ?_, ?_⟩ <;> decide

theorem mem_jsMapSet {α : Type} (m : List (String × α)) (k k' : String)
    (v v' : α) (h : (k, v) ∈ jsMapSet m k' v') :
    (k, v) ∈ m ∨ (k = k' ∧ v = v') := by
  unfold jsMapSet at h
  by_cases hany : m.any (fun p => p.1 = k')
  · rw [if_pos hany] at h
    obtain ⟨p, hp, hpe⟩ := List.mem_map.mp h
    by_cases hpk : p.1 = k'
    · rw [if_pos hpk] at hpe
      right
      exact ⟨(congrArg Prod.fst hpe).symm, (congrArg Prod.snd hpe).symm⟩
    · rw [if_neg hpk] at hpe
      left
      rwa [← hpe]
  · rw [if_neg hany] at h
    rcases List.mem_append.mp h with h1 | h2
    · left; exact h1
    · right
      have := List.mem_singleton.mp h2
      exact ⟨(congrArg Prod.fst this), (congrArg Prod.snd this)⟩

theorem mem_foldl_edges {acc : List (String × Int)} {es : List FluentEdge}
    {k : String} {v : Int}
    (h : (k, v) ∈ es.foldl (fun m e => jsMapSet m e.productRef e.onHand) acc) :
    (k, v) ∈ acc ∨ ∃ e ∈ es, e.productRef = k ∧ e.onHand = v := by
  induction es generalizing acc with
  | nil => left; exact h
  | cons e es ih =>
    rcases @ih (jsMapSet acc e.productRef e.onHand) h with h1 | h2
    · rcases mem_jsMapSet _ _ _ _ _ h1 with h3 | h4
      · left; exact h3
      · right; exact ⟨e, List.mem_cons_self e es, h4.1.symm, h4.2.symm⟩
    · obtain ⟨e', he', hp⟩ := h2
      right; exact ⟨e', List.mem_cons_of_mem e he', hp⟩

theorem getFluentInventoryLoop_entry_from_edge (pages : Nat → FluentPage) :
    ∀ (fuel i : Nat) (acc m : List (String × Int)) (k : String) (v : Int),
      getFluentInventoryLoop pages fuel i acc = some m → (k, v) ∈ m →
      (k, v) ∈ acc ∨ ∃ j e, e ∈ (pages j).edges ∧ e.productRef = k ∧ e.onHand = v := by
  intro fuel
  induction fuel with
  | zero => intro i acc m k v hm; exact absurd hm (by simp [getFluentInventoryLoop])
  | succ n ih =>
    intro i acc m k v hm hkv
    rw [getFluentInventoryLoop] at hm
    by_cases hp : (pages i).hasNextPage
    · rw [if_pos hp] at hm
      rcases ih (i + 1) _ m k v hm hkv with h1 | h2
      · rcases mem_foldl_edges h1 with h3 | h4
        · left; exact h3
        · obtain ⟨e, he, hpr⟩ := h4
          right; exact ⟨i, e, he, hpr⟩
      · right; exact h2
    · rw [if_neg hp] at hm
      have : m = (pages i).edges.foldl (fun m e => jsMapSet m e.productRef e.onHand) acc :=
        (Option.some.injEq _ _ ▸ hm).symm
      rcases mem_foldl_edges (this ▸ hkv) with h3 | h4
      · left; exact h3
      · obtain ⟨e, he, hpr⟩ := h4
        right; exact ⟨i, e, he, hpr⟩

/-- C6 as amended: product-key matching against the bulk-scan result map
is case-sensitive exact string equality — a key obtains an onHand value
only from a node whose `productRef` equals the key character for
character (so `"ABC123"` never matches a `"abc123"` node; the lookup
misses and the caller defaults the stock to 0). -/
theorem bulk_match_case_sensitive (pages : Nat → FluentPage) (fuel : Nat)
    (m : List (String × Int)) (k : String) (v : Int)
    (hm : getFluentInventory pages fuel = some m)
    (hv : jsMapGet m k = some v) :
    ∃ j e, e ∈ (pages j).edges ∧ e.productRef = k ∧ e.onHand = v := by
  have hmem : (k, v) ∈ m := by
    unfold jsMapGet at hv
    obtain ⟨p, hp, hpv⟩ := Option.map_eq_some'.mp hv
    have hfind := List.find?_some hp
    have hmem' := List.mem_of_find?_eq_some hp
    have hk : p.1 = k := of_decide_eq_true hfind
    have : p = (k, v) := Prod.ext hk hpv
    rwa [← this]
  rcases getFluentInventoryLoop_entry_from_edge pages fuel 0 [] m k v hm hmem with h | h
  · exact absurd h (by simp)
  · exact h

/-- Witness for the amended C6: the exact-case key `"abc123"` does reach
its node. -/
theorem bulk_match_case_sensitive_witness :
    getFluentInventory lowerCasePages 1 = some [("abc123", 7)]
    ∧ jsMapGet [("abc123", (7:Int))] "abc123" = some 7
    ∧ ∃ j e, e ∈ (lowerCasePages j).edges ∧ e.productRef = "abc123" ∧ e.onHand = 7 :=
  ⟨by decide, by decide,
   bulk_match_case_sensitive lowerCasePages 1 [("abc123", 7)] "abc123" 7
     (by decide) (by decide)⟩

/-! Per-key primary-inventory failures (C8). -/

theorem find?_map_overwrite_ne {α : Type} (m : List (String × α))
    (p psid : String) (v : α) (h : p ≠ psid) :
    (m.map (fun q => if q.1 = p then (p, v) else q)).find? (fun q => q.1 = psid)
      = m.find? (fun q => q.1 = psid) := by
  induction m with
  | nil => rfl
  | cons q m ih =>
    by_cases hq : q.1 = p
    · rw [List.map_cons, if_pos hq,
        List.find?_cons_of_neg _ (by simp [h]),
        List.find?_cons_of_neg _ (by simp [hq, h]), ih]
    · rw [List.map_cons, if_neg hq]
      by_cases hq2 : q.1 = psid
      · rw [List.find?_cons_of_pos _ (by simp [hq2]),
          List.find?_cons_of_pos _ (by simp [hq2])]
      · rw [List.find?_cons_of_neg _ (by simp [hq2]),
          List.find?_cons_of_neg _ (by simp [hq2]), ih]

theorem find?_append_single_ne {α : Type} (m : List (String × α))
    (p psid : String) (v : α) (h : p ≠ psid) :
    (m ++ [(p, v)]).find? (fun q => q.1 = psid)
      = m.find? (fun q => q.1 = psid) := by
  induction m with
  | nil =>
    rw [List.nil_append, List.find?_cons_of_neg _ (by simp [h])]
  | cons q m ih =>
    by_cases hq : q.1 = psid
    · rw [List.cons_append, List.find?_cons_of_pos _ (by simp [hq]),
        List.find?_cons_of_pos _ (by simp [hq])]
    · rw [List.cons_append, List.find?_cons_of_neg _ (by simp [hq]),
        List.find?_cons_of_neg _ (by simp [hq]), ih]

theorem jsMapGet_set_ne {α : Type} (m : List (String × α)) (p psid : String)
    (v : α) (h : p ≠ psid) :
    jsMapGet (jsMapSet m p v) psid = jsMapGet m psid := by
  unfold jsMapGet jsMapSet
  by_cases hany : m.any (fun q => q.1 = p)
  · rw [if_pos hany, find?_map_overwrite_ne m p psid v h]
  · rw [if_neg hany, find?_append_single_ne m p psid v h]

theorem fluentStep_foldl_get_none (outcome : String → FluentFetchOutcome)
    (n : Nat) (psid : String) (hfail : (outcome psid).isFailure = true) :
    ∀ (l : List (Nat × String)) (st : List String × List (String × Int)),
      jsMapGet st.2 psid = none →
      jsMapGet ((l.foldl (fluentForProductsStep outcome n) st).2) psid = none := by
  intro l
  induction l with
  | nil => intro st h; exact h
  | cons ip l ih =>
    intro st h
    rw [List.foldl_cons]
    apply ih
    cases ho : outcome ip.2 with
    | edges es =>
      cases es with
      | nil => simpa [fluentForProductsStep, ho] using h
      | cons e es' =>
        by_cases hp : ip.2 = psid
        · rw [hp] at ho
          rw [ho] at hfail
          exact absurd hfail (by simp [FluentFetchOutcome.isFailure])
        · simpa [fluentForProductsStep, ho, jsMapGet_set_ne st.2 ip.2 psid e.2 hp]
            using h
    | httpError => simpa [fluentForProductsStep, ho] using h
    | gqlErrors => simpa [fluentForProductsStep, ho] using h
    | transportError => simpa [fluentForProductsStep, ho] using h

/-- Counterexample input for C8: a single-key spot run whose Fluent
per-key query fails with a non-success HTTP status, while the
autocomplete lookup succeeds with catalog stock 3. -/
def failedFluentEnv : SpotEnv :=
  { psidsValid := true
    psids := ["A"]
    auth := .ok ()
    fluentOutcome := fun _ => .httpError
    auto := fun _ => .ok
      [{ productName := "PName", url := some "u", sku := "A",
         variant := some ⟨"A", 3⟩ }] }

/-- Counterexample to C8: when the per-key primary query for `"A"` fails,
the spot run still classifies `"A"` — with a fabricated primary stock of
0 — and records no error anywhere: the trace holds a result event with
`fluentStock = 0`, its terminal complete event carries an empty error
list, and no error event was emitted. -/
theorem perkey_failure_defaults_zero_cex :
    ((spotModeTrace failedFluentEnv).any fun e =>
      match e with
      | .result r => r.psid == "A" && r.fluentStock == 0 && r.commerceToolsStock == 3
      | _ => false) = true
    ∧ ((spotModeTrace failedFluentEnv).any fun e =>
      match e with
      | .complete _ errs _ _ => errs.isEmpty
      | _ => false) = true
    ∧ countErrorEvents (spotModeTrace failedFluentEnv) = 0
    ∧ (failedFluentEnv.fluentOutcome "A").isFailure = true := by
  refine ⟨?_, ?_, ?_, ?_⟩ <;> decide

/-- The error message recorded by the spot loop's per-item catch. -/
def spotFailMsg (psid : String) : String :=
  s!"Failed to process PSID {psid}"

/-- Whether an `Except` value is an error. -/
def isErrorResult {ε α : Type} : Except ε α → Bool := fun x =>
  match x with
  | .error _ => true
  | .ok _ => false

/-- The run-level error list accumulated by the spot-mode loop. -/
def spotRunErrors (env : SpotEnv) : List String :=
  (env.psids.enum.foldl
    (processSpotItem env
      (getFluentInventoryForProducts env.fluentOutcome env.psids).2
      env.psids.length)
    { results := [], errors := [], events := [] }).errors

theorem spotLoop_errors_eq (env : SpotEnv) (fm : List (String × Int)) (n : Nat) :
    ∀ (l : List (Nat × String)) (st : SpotLoopState),
      (l.foldl (processSpotItem env fm n) st).errors
        = st.errors ++ (l.filter (fun ip => isErrorResult (env.auto ip.2))).map
            (fun ip => spotFailMsg ip.2) := by
  intro l
  induction l with
  | nil => intro st; simp
  | cons ip l ih =>
    intro st
    rw [List.foldl_cons]
    cases ho : env.auto ip.2 with
    | error e =>
      rw [ih]
      simp [processSpotItem, ho, List.filter_cons, isErrorResult, spotFailMsg]
    | ok prods =>
      rw [ih]
      simp [processSpotItem, ho, List.filter_cons, isErrorResult]

theorem enumFrom_filter_snd_map {α β : Type} (p : α → Bool) (g : α → β) :
    ∀ (k : Nat) (l : List α),
      ((List.enumFrom k l).filter (fun ip => p ip.2)).map (fun ip => g ip.2)
        = (l.filter p).map g := by
  intro k l
  induction l generalizing k with
  | nil => rfl
  | cons a l ih =>
    rw [List.enumFrom]
    by_cases hp : p a = true
    · rw [List.filter_cons_of_pos (by simpa using hp),
        List.filter_cons_of_pos hp, List.map_cons, List.map_cons, ih (k + 1)]
    · rw [List.filter_cons_of_neg (by simpa using hp),
        List.filter_cons_of_neg hp, ih (k + 1)]

/-- C8 as amended: a failed per-key primary query leaves the key out of
the inventory map (onHand absent *there*), but no non-fatal error is
recorded — the run's error list contains exactly the per-item catalog
(autocomplete) failures — and the spot orchestrator then classifies the
key anyway, with its primary stock defaulted to 0 by `get(psid) || 0`. -/
theorem perkey_failure_skips_map_only (env : SpotEnv) (psid : String)
    (h : (env.fluentOutcome psid).isFailure = true) :
    jsMapGet (getFluentInventoryForProducts env.fluentOutcome env.psids).2 psid = none
    ∧ fluentStockOf (getFluentInventoryForProducts env.fluentOutcome env.psids).2 psid = 0
    ∧ spotRunErrors env
        = (env.psids.filter (fun p => isErrorResult (env.auto p))).map spotFailMsg := by
  have h1 : jsMapGet (getFluentInventoryForProducts env.fluentOutcome env.psids).2 psid
      = none := by
    unfold getFluentInventoryForProducts
    exact fluentStep_foldl_get_none env.fluentOutcome env.psids.length psid h
      env.psids.enum ([], []) rfl
  refine ⟨h1, ?_, ?_⟩
  · rw [fluentStockOf, h1]
    rfl
  · rw [spotRunErrors, spotLoop_errors_eq]
    simp only [List.nil_append]
    exact enumFrom_filter_snd_map (fun p => isErrorResult (env.auto p)) spotFailMsg
      0 env.psids

/-- Witness for the amended C8 at the counterexample environment. -/
theorem perkey_failure_skips_map_only_witness :
    (failedFluentEnv.fluentOutcome "A").isFailure = true
    ∧ jsMapGet (getFluentInventoryForProducts failedFluentEnv.fluentOutcome
        failedFluentEnv.psids).2 "A" = none
    ∧ fluentStockOf (getFluentInventoryForProducts failedFluentEnv.fluentOutcome
        failedFluentEnv.psids).2 "A" = 0 :=
  ⟨by decide,
   (perkey_failure_skips_map_only failedFluentEnv "A" (by decide)).1,
   (perkey_failure_skips_map_only failedFluentEnv "A" (by decide)).2.1⟩

/-! Terminal-event structure of the stream (C2). -/

theorem complete_free_append {l1 l2 : List SEvent}
    (h1 : ∀ e ∈ l1, e.isComplete = false) (h2 : ∀ e ∈ l2, e.isComplete = false) :
    ∀ e ∈ l1 ++ l2, e.isComplete = false := by
  intro e he
  rcases List.mem_append.mp he with h | h
  · exact h1 e h
  · exact h2 e h

/-- The decomposition asserting that a trace consists of a complete-free
body followed by one terminal event. -/
def TerminalShape (t : List SEvent) : Prop :=
  ∃ body term, t = body ++ [term]
    ∧ (∀ e ∈ body, e.isComplete = false)
    ∧ (term.isComplete = true ∨ term.isErrorEvent = true)

theorem terminal_shape_single (c : SEvent)
    (hc : c.isComplete = true ∨ c.isErrorEvent = true) : TerminalShape [c] :=
  ⟨[], c, rfl, by simp, hc⟩

theorem terminal_shape_cons (a : SEvent) (ha : a.isComplete = false)
    {rest : List SEvent} (h : TerminalShape rest) : TerminalShape (a :: rest) := by
  obtain ⟨body, term, heq, hb, ht⟩ := h
  refine ⟨a :: body, term, by rw [heq]; rfl, ?_, ht⟩
  intro e he
  rcases List.mem_cons.mp he with h1 | h2
  · rw [h1]; exact ha
  · exact hb e h2

theorem terminal_shape_append (l : List SEvent)
    (hl : ∀ e ∈ l, e.isComplete = false) {rest : List SEvent}
    (h : TerminalShape rest) : TerminalShape (l ++ rest) := by
  obtain ⟨body, term, heq, hb, ht⟩ := h
  exact ⟨l ++ body, term, by rw [heq, List.append_assoc],
    complete_free_append hl hb, ht⟩

theorem terminal_shape_cons_progress (msg : String) (c t : Nat)
    {rest : List SEvent} (h : TerminalShape rest) :
    TerminalShape (SEvent.progress msg c t :: rest) :=
  terminal_shape_cons (SEvent.progress msg c t) rfl h

theorem terminal_shape_cons_error (msg : String) {rest : List SEvent}
    (h : TerminalShape rest) : TerminalShape (SEvent.errorEv msg :: rest) :=
  terminal_shape_cons (SEvent.errorEv msg) rfl h

theorem terminal_shape_cons_summary (s : SummaryPayload) {rest : List SEvent}
    (h : TerminalShape rest) : TerminalShape (SEvent.summaryEv s :: rest) :=
  terminal_shape_cons (SEvent.summaryEv s) rfl h

theorem terminal_shape_single_complete (rs : List ProductStockResult)
    (es : List String) (tt : Nat) (ss : Option SummaryPayload) :
    TerminalShape [SEvent.complete rs es tt ss] :=
  terminal_shape_single _ (Or.inl rfl)

theorem terminal_shape_single_error (m : String) :
    TerminalShape [SEvent.errorEv m] :=
  terminal_shape_single _ (Or.inr rfl)

theorem fatalTail_terminal_shape (m : String) : TerminalShape (fatalTail m) := by
  unfold fatalTail
  by_cases hc : (strIncludes m "network" || strIncludes m "fetch") = true
  · rw [if_pos hc]
    refine ⟨[SEvent.errorEv s!"Fatal error: {m}"], _, rfl, ?_, Or.inr rfl⟩
    intro e he
    rw [List.mem_singleton.mp he]
    rfl
  · rw [if_neg hc]
    exact ⟨[], _, rfl, by simp, Or.inr rfl⟩

theorem processFullItem_events_complete_free (env : FullEnv) (nsLen : Nat)
    (nm : List (String × NyceArticle)) (gm : List (String × GoogleFeedProduct))
    (st : FullLoopState) (ip : Nat × String)
    (hst : ∀ e ∈ st.events, e.isComplete = false) :
    ∀ e ∈ (processFullItem env nsLen nm gm st ip).events, e.isComplete = false := by
  intro e he
  by_cases hb : jsMapHas nm ip.2
  · cases hf : env.itemFluent ip.2 with
    | error em =>
      simp [processFullItem, hb, hf] at he
      rcases he with h | h | h
      · exact hst e h
      · rw [h]; rfl
      · rw [h]; rfl
    | ok fs =>
      cases ha : env.itemAuto ip.2 with
      | error am =>
        simp [processFullItem, hb, hf, ha] at he
        rcases he with h | h | h | h
        · exact hst e h
        · rw [h]; rfl
        · rw [h]; rfl
        · rw [h]; rfl
      | ok prods =>
        simp [processFullItem, hb, hf, ha] at he
        rcases he with h | h | h
        · exact hst e h
        · rw [h]; rfl
        · rw [h]; rfl
  · simp [processFullItem, hb] at he
    rcases he with h | h
    · exact hst e h
    · rw [h]; rfl

theorem fullLoop_events_complete_free (env : FullEnv) (nsLen : Nat)
    (nm : List (String × NyceArticle)) (gm : List (String × GoogleFeedProduct)) :
    ∀ (l : List (Nat × String)) (st : FullLoopState),
      (∀ e ∈ st.events, e.isComplete = false) →
      ∀ e ∈ (l.foldl (processFullItem env nsLen nm gm) st).events,
        e.isComplete = false := by
  intro l
  induction l with
  | nil => intro st h; exact h
  | cons ip l ih =>
    intro st h
    rw [List.foldl_cons]
    exact ih _ (processFullItem_events_complete_free env nsLen nm gm st ip h)

theorem runFullLoop_events_complete_free (env : FullEnv) (nsLen : Nat)
    (nm : List (String × NyceArticle)) (gm : List (String × GoogleFeedProduct))
    (l : List String) :
    ∀ e ∈ (runFullLoop env nsLen nm gm l).events, e.isComplete = false := by
  unfold runFullLoop
  apply fullLoop_events_complete_free
  intro e he
  exact absurd he (List.not_mem_nil e)

theorem countComplete_cons_false (a : SEvent) (l : List SEvent)
    (ha : a.isComplete = false) :
    countCompleteEvents (a :: l) = countCompleteEvents l := by
  unfold countCompleteEvents
  rw [List.filter_cons_of_neg (by simp [ha])]

theorem countComplete_fatalTail (m : String) :
    countCompleteEvents (fatalTail m) = 0 := by
  unfold fatalTail countCompleteEvents
  by_cases hc : (strIncludes m "network" || strIncludes m "fetch") = true
  · simp [hc, SEvent.isComplete]
  · simp [hc, SEvent.isComplete]

theorem le_countError_cons (a : SEvent) (l : List SEvent)
    (h : 1 ≤ countErrorEvents l) : 1 ≤ countErrorEvents (a :: l) := by
  unfold countErrorEvents at *
  rw [List.filter_cons]
  split
  · simp only [List.length_cons]
    omega
  · exact h

theorem one_le_countError_fatalTail (m : String) :
    1 ≤ countErrorEvents (fatalTail m) := by
  unfold fatalTail countErrorEvents
  by_cases hc : (strIncludes m "network" || strIncludes m "fetch") = true
  · simp [hc, SEvent.isErrorEvent]
  · simp [hc, SEvent.isErrorEvent]

/-- Counterexample input for C2: a full-mode run whose feed fetch fails
with message `boom`. -/
def feedErrorEnv : FullEnv :=
  { psidsValid := true
    psids := ["A"]
    nyceCsvData := some [("A", ⟨5, 0⟩)]
    feedUrl := some "http://feed"
    feedFetch := .error "boom"
    auth := .ok ()
    itemFluent := fun _ => .ok 0
    itemAuto := fun _ => .ok [] }

/-- Counterexample to C2: on a fatal feed-fetch failure the stream emits
four error events — the failure message, a diagnostic URL event, the
outer catch's `Fatal error:` event, and the network-hint event — not
exactly one. -/
theorem fatal_feed_multiple_error_events_cex :
    countErrorEvents (fullModeTrace feedErrorEnv) = 4
    ∧ countErrorEvents (fullModeTrace feedErrorEnv) ≠ 1
    ∧ countCompleteEvents (fullModeTrace feedErrorEnv) = 0 := by
  refine ⟨?_, ?_, ?_⟩ <;> decide

theorem countComplete_nil : countCompleteEvents [] = 0 := rfl

theorem countComplete_append (l1 l2 : List SEvent) :
    countCompleteEvents (l1 ++ l2) = countCompleteEvents l1 + countCompleteEvents l2 := by
  simp [countCompleteEvents, List.filter_append]

theorem countComplete_cons_progress (msg : String) (c t : Nat) (l : List SEvent) :
    countCompleteEvents (SEvent.progress msg c t :: l) = countCompleteEvents l :=
  countComplete_cons_false _ _ rfl

theorem countComplete_cons_error (msg : String) (l : List SEvent) :
    countCompleteEvents (SEvent.errorEv msg :: l) = countCompleteEvents l :=
  countComplete_cons_false _ _ rfl

theorem countError_nil : countErrorEvents [] = 0 := rfl

theorem countError_append (l1 l2 : List SEvent) :
    countErrorEvents (l1 ++ l2) = countErrorEvents l1 + countErrorEvents l2 := by
  simp [countErrorEvents, List.filter_append]

theorem countError_cons_progress (msg : String) (c t : Nat) (l : List SEvent) :
    countErrorEvents (SEvent.progress msg c t :: l) = countErrorEvents l := by
  unfold countErrorEvents
  rw [List.filter_cons_of_neg (by simp [SEvent.isErrorEvent])]

theorem countError_cons_error (msg : String) (l : List SEvent) :
    countErrorEvents (SEvent.errorEv msg :: l) = countErrorEvents l + 1 := by
  unfold countErrorEvents
  rw [List.filter_cons_of_pos (by simp [SEvent.isErrorEvent])]
  simp

theorem map_progress_complete_free (msgs : List String) (n : Nat) :
    ∀ e ∈ msgs.map (fun msg => SEvent.progress msg 0 n), e.isComplete = false := by
  intro e he
  obtain ⟨m, _, hm⟩ := List.mem_map.mp he
  rw [← hm]
  rfl

theorem processSpotItem_events_complete_free (env : SpotEnv)
    (fm : List (String × Int)) (n : Nat) (st : SpotLoopState) (ip : Nat × String)
    (hst : ∀ e ∈ st.events, e.isComplete = false) :
    ∀ e ∈ (processSpotItem env fm n st ip).events, e.isComplete = false := by
  intro e he
  cases ha : env.auto ip.2 with
  | error m =>
    simp [processSpotItem, ha] at he
    rcases he with h | h | h
    · exact hst e h
    · rw [h]; rfl
    · rw [h]; rfl
  | ok prods =>
    simp [processSpotItem, ha] at he
    rcases he with h | h | h
    · exact hst e h
    · rw [h]; rfl
    · rw [h]; rfl

theorem spotLoop_events_complete_free (env : SpotEnv)
    (fm : List (String × Int)) (n : Nat) :
    ∀ (l : List (Nat × String)) (st : SpotLoopState),
      (∀ e ∈ st.events, e.isComplete = false) →
      ∀ e ∈ (l.foldl (processSpotItem env fm n) st).events,
        e.isComplete = false := by
  intro l
  induction l with
  | nil => intro st h; exact h
  | cons ip l ih =>
    intro st h
    rw [List.foldl_cons]
    exact ih _ (processSpotItem_events_complete_free env fm n st ip h)

theorem spotModeTrace_terminal_shape (env : SpotEnv) :
    TerminalShape (spotModeTrace env) := by
  cases hpv : env.psidsValid with
  | false =>
    simp [spotModeTrace, hpv]
    exact terminal_shape_single_error _
  | true =>
    cases ha : env.auth with
    | error m =>
      simp [spotModeTrace, hpv, ha]
      apply terminal_shape_cons_progress
      apply terminal_shape_cons_progress
      exact fatalTail_terminal_shape _
    | ok uu =>
      simp [spotModeTrace, hpv, ha]
      apply terminal_shape_cons_progress
      apply terminal_shape_cons_progress
      apply terminal_shape_cons_progress
      refine terminal_shape_append _ (map_progress_complete_free _ _) ?_
      refine terminal_shape_append _ ?_ ?_
      · apply spotLoop_events_complete_free
        intro e he
        exact absurd he (List.not_mem_nil e)
      · exact terminal_shape_single_complete _ _ _ _

/-- C2 as amended: the event stream of one run of the streaming handler
— full mode or spot mode — is a complete-free body followed by a single
terminal event (a `complete` or an `error`), so nothing — in particular
no `complete` — follows the terminal event; on a fatal full-mode
feed-fetch or auth failure no `complete` is emitted and the stream
closes after one *or more* error events (the fatal message plus
diagnostic error events), not exactly one. -/
theorem stream_terminal_event_structure (env : FullEnv) (senv : SpotEnv) :
    TerminalShape (fullModeTrace env)
    ∧ TerminalShape (spotModeTrace senv)
    ∧ (∀ m, env.psidsValid = true → env.nyceCsvData.isSome = true →
        env.feedUrl.isSome = true → env.feedFetch = Except.error m →
        countCompleteEvents (fullModeTrace env) = 0
          ∧ 1 ≤ countErrorEvents (fullModeTrace env))
    ∧ (∀ m ps, env.psidsValid = true → env.nyceCsvData.isSome = true →
        env.feedUrl.isSome = true → env.feedFetch = Except.ok ps →
        (ps.filter (fun p => p.Availability = "out_of_stock")).length ≠ 0 →
        env.auth = Except.error m →
        countCompleteEvents (fullModeTrace env) = 0
          ∧ 1 ≤ countErrorEvents (fullModeTrace env)) := by
  refine ⟨?_, spotModeTrace_terminal_shape senv, ?_, ?_⟩
  · cases hpv : env.psidsValid with
    | false =>
      simp [fullModeTrace, hpv]
      exact terminal_shape_single_error _
    | true =>
      cases hn : env.nyceCsvData with
      | none =>
        simp [fullModeTrace, hpv, hn]
        exact terminal_shape_single_error _
      | some table =>
        cases hu : env.feedUrl with
        | none =>
          simp [fullModeTrace, hpv, hn, hu]
          apply terminal_shape_cons_progress
          apply terminal_shape_cons_progress
          apply terminal_shape_cons_error
          exact fatalTail_terminal_shape _
        | some url =>
          cases hf : env.feedFetch with
          | error m =>
            simp [fullModeTrace, hpv, hn, hu, hf]
            apply terminal_shape_cons_progress
            apply terminal_shape_cons_progress
            apply terminal_shape_cons_error
            apply terminal_shape_cons_error
            exact fatalTail_terminal_shape _
          | ok ps =>
            by_cases h0 :
                (ps.filter (fun p => p.Availability = "out_of_stock")).length = 0
            · simp [fullModeTrace, hpv, hn, hu, hf, h0]
              apply terminal_shape_cons_progress
              apply terminal_shape_cons_progress
              apply terminal_shape_cons_progress
              apply terminal_shape_cons_progress
              apply terminal_shape_cons_progress
              exact terminal_shape_single_complete _ _ _ _
            · cases ha : env.auth with
              | error m =>
                simp [fullModeTrace, hpv, hn, hu, hf, h0, ha]
                apply terminal_shape_cons_progress
                apply terminal_shape_cons_progress
                apply terminal_shape_cons_progress
                apply terminal_shape_cons_progress
                apply terminal_shape_cons_progress
                apply terminal_shape_cons_progress
                apply terminal_shape_cons_error
                apply terminal_shape_cons_error
                exact fatalTail_terminal_shape _
              | ok uu =>
                by_cases h1 :
                    (((ps.filter (fun p => p.Availability = "out_of_stock")).map
                      (fun p => p.Id)).filter
                        (fun psid => jsMapHas (buildNyceMap table) psid)).length = 0
                · simp [fullModeTrace, hpv, hn, hu, hf, h0, ha, h1]
                  apply terminal_shape_cons_progress
                  apply terminal_shape_cons_progress
                  apply terminal_shape_cons_progress
                  apply terminal_shape_cons_progress
                  apply terminal_shape_cons_progress
                  apply terminal_shape_cons_progress
                  apply terminal_shape_cons_progress
                  apply terminal_shape_cons_progress
                  apply terminal_shape_cons_progress
                  exact terminal_shape_single_complete _ _ _ _
                · simp [fullModeTrace, hpv, hn, hu, hf, h0, ha, h1]
                  apply terminal_shape_cons_progress
                  apply terminal_shape_cons_progress
                  apply terminal_shape_cons_progress
                  apply terminal_shape_cons_progress
                  apply terminal_shape_cons_progress
                  apply terminal_shape_cons_progress
                  apply terminal_shape_cons_progress
                  apply terminal_shape_cons_progress
                  refine terminal_shape_append _ ?_ ?_
                  · exact runFullLoop_events_complete_free env _ _ _ _
                  · apply terminal_shape_cons_progress
                    apply terminal_shape_cons_summary
                    exact terminal_shape_single_complete _ _ _ _
  · intro m hval hnS huS hf
    obtain ⟨table, hn⟩ := Option.isSome_iff_exists.mp hnS
    obtain ⟨url, hu⟩ := Option.isSome_iff_exists.mp huS
    constructor
    · simp [fullModeTrace, hval, hn, hu, hf, countComplete_append,
        countComplete_cons_progress, countComplete_cons_error, countComplete_nil,
        countComplete_fatalTail]
    · simp [fullModeTrace, hval, hn, hu, hf, countError_append,
        countError_cons_progress, countError_cons_error, countError_nil]
  · intro m ps hval hnS huS hf h6 ha
    obtain ⟨table, hn⟩ := Option.isSome_iff_exists.mp hnS
    obtain ⟨url, hu⟩ := Option.isSome_iff_exists.mp huS
    constructor
    · simp [fullModeTrace, hval, hn, hu, hf, h6, ha, countComplete_append,
        countComplete_cons_progress, countComplete_cons_error, countComplete_nil,
        countComplete_fatalTail]
    · simp [fullModeTrace, hval, hn, hu, hf, h6, ha, countError_append,
        countError_cons_progress, countError_cons_error, countError_nil]

/-- Witness for the amended C2 at the feed-failure environment. -/
theorem stream_terminal_event_structure_witness :
    feedErrorEnv.feedFetch = Except.error "boom"
    ∧ countCompleteEvents (fullModeTrace feedErrorEnv) = 0
    ∧ 1 ≤ countErrorEvents (fullModeTrace feedErrorEnv) :=
  ⟨rfl,
   ((stream_terminal_event_structure feedErrorEnv failedFluentEnv).2.2.1
     "boom" rfl rfl rfl rfl).1,
   ((stream_terminal_event_structure feedErrorEnv failedFluentEnv).2.2.1
     "boom" rfl rfl rfl rfl).2⟩

/-! Full-mode candidate filtering and the end-of-run summary (C7). -/

theorem processFullItem_skipped (env : FullEnv) (nsLen : Nat)
    (nm : List (String × NyceArticle)) (gm : List (String × GoogleFeedProduct))
    (st : FullLoopState) (ip : Nat × String) :
    (processFullItem env nsLen nm gm st ip).skippedCount
      = st.skippedCount + (if jsMapHas nm ip.2 then 0 else 1) := by
  by_cases hb : jsMapHas nm ip.2
  · cases hf : env.itemFluent ip.2 with
    | error em => simp [processFullItem, hb, hf]
    | ok fs =>
      cases ha : env.itemAuto ip.2 with
      | error am => simp [processFullItem, hb, hf, ha]
      | ok prods => simp [processFullItem, hb, hf, ha]
  · simp [processFullItem, hb]

theorem fullLoop_skipped_count (env : FullEnv) (nsLen : Nat)
    (nm : List (String × NyceArticle)) (gm : List (String × GoogleFeedProduct)) :
    ∀ (l : List (Nat × String)) (st : FullLoopState),
      (l.foldl (processFullItem env nsLen nm gm) st).skippedCount
        = st.skippedCount + (l.filter (fun ip => !(jsMapHas nm ip.2))).length := by
  intro l
  induction l with
  | nil => intro st; simp
  | cons ip l ih =>
    intro st
    rw [List.foldl_cons, ih, processFullItem_skipped]
    by_cases hb : jsMapHas nm ip.2
    · rw [List.filter_cons_of_neg (by simp [hb]), if_pos hb]
      omega
    · rw [List.filter_cons_of_pos (by simp [hb]), if_neg hb]
      simp only [List.length_cons]
      omega

theorem length_filter_not_add {α : Type} (p : α → Bool) (l : List α) :
    (l.filter (fun a => !(p a))).length + (l.filter p).length = l.length := by
  induction l with
  | nil => rfl
  | cons a l ih =>
    by_cases hp : p a = true
    · rw [List.filter_cons_of_neg (by simp [hp]), List.filter_cons_of_pos hp]
      simp only [List.length_cons]
      omega
    · rw [List.filter_cons_of_pos (by simp [hp]), List.filter_cons_of_neg hp]
      simp only [List.length_cons]
      omega

theorem enum_filter_snd_length {α : Type} (p : α → Bool) (l : List α) :
    (l.enum.filter (fun ip => p ip.2)).length = (l.filter p).length := by
  have h := congrArg List.length (enumFrom_filter_snd_map p (fun a => a) 0 l)
  simpa [List.enum, List.length_map] using h

theorem enumFrom_map_snd {α : Type} :
    ∀ (k : Nat) (l : List α), (List.enumFrom k l).map (fun ip => ip.2) = l := by
  intro k l
  induction l generalizing k with
  | nil => rfl
  | cons a l ih =>
    rw [List.enumFrom, List.map_cons, ih (k + 1)]

theorem processFullItem_result_mem (env : FullEnv) (nsLen : Nat)
    (nm : List (String × NyceArticle)) (gm : List (String × GoogleFeedProduct))
    (st : FullLoopState) (ip : Nat × String) (r : ProductStockResult)
    (h : SEvent.result r ∈ (processFullItem env nsLen nm gm st ip).events) :
    SEvent.result r ∈ st.events ∨ (r.psid = ip.2 ∧ jsMapHas nm ip.2 = true) := by
  by_cases hb : jsMapHas nm ip.2
  · cases hf : env.itemFluent ip.2 with
    | error em =>
      simp [processFullItem, hb, hf] at h
      exact Or.inl h
    | ok fs =>
      cases ha : env.itemAuto ip.2 with
      | error am =>
        simp [processFullItem, hb, hf, ha] at h
        rcases h with h | h
        · exact Or.inl h
        · right
          rw [h]
          exact ⟨rfl, hb⟩
      | ok prods =>
        simp [processFullItem, hb, hf, ha] at h
        rcases h with h | h
        · exact Or.inl h
        · right
          rw [h]
          exact ⟨rfl, hb⟩
  · simp [processFullItem, hb] at h
    exact Or.inl h

theorem fullLoop_result_mem (env : FullEnv) (nsLen : Nat)
    (nm : List (String × NyceArticle)) (gm : List (String × GoogleFeedProduct)) :
    ∀ (l : List (Nat × String)) (st : FullLoopState) (r : ProductStockResult),
      SEvent.result r ∈ (l.foldl (processFullItem env nsLen nm gm) st).events →
      SEvent.result r ∈ st.events
        ∨ (r.psid ∈ l.map (fun ip => ip.2) ∧ jsMapHas nm r.psid = true) := by
  intro l
  induction l with
  | nil => intro st r h; exact Or.inl h
  | cons ip l ih =>
    intro st r h
    rw [List.foldl_cons] at h
    rcases ih _ r h with h1 | h2
    · rcases processFullItem_result_mem env nsLen nm gm st ip r h1 with h3 | h4
      · exact Or.inl h3
      · right
        refine ⟨?_, ?_⟩
        · rw [List.map_cons, h4.1]
          exact List.mem_cons_self _ _
        · rw [h4.1]
          exact h4.2
    · right
      exact ⟨by rw [List.map_cons]; exact List.mem_cons_of_mem _ h2.1, h2.2⟩

/-- C7: in full mode, only feed-unsellable keys that are present in the
secondary (NYCE) data produce result events — feed-sellable items are
omitted entirely and unsellable items missing from the secondary data
are skipped — the summary's `overlapCount` is the number of not-sellable
feed keys present in the secondary data, and the loop's skipped count is
the not-sellable count minus the overlap count. -/
theorem full_mode_filter_and_summary (env : FullEnv)
    (table : List (String × NyceCsvRow)) (ps : List GoogleFeedProduct) (u : String)
    (hval : env.psidsValid = true)
    (hn : env.nyceCsvData = some table)
    (hu : env.feedUrl = some u)
    (hf : env.feedFetch = Except.ok ps)
    (ha : env.auth = Except.ok ())
    (h6 : (ps.filter (fun p => p.Availability = "out_of_stock")).length ≠ 0)
    (h7 : (((ps.filter (fun p => p.Availability = "out_of_stock")).map (fun p => p.Id)).filter
        (fun k => jsMapHas (buildNyceMap table) k)).length ≠ 0) :
    (∃ w, SEvent.summaryEv
        { totalGoogleFeedItems := ps.length
          notSellableCount := (ps.filter (fun p => p.Availability = "out_of_stock")).length
          nyceCsvCount := (buildNyceMap table).length
          overlapCount := (((ps.filter (fun p => p.Availability = "out_of_stock")).map
              (fun p => p.Id)).filter (fun k => jsMapHas (buildNyceMap table) k)).length
          itemsWithUnallocatedStock := w } ∈ fullModeTrace env)
    ∧ (runFullLoop env (ps.filter (fun p => p.Availability = "out_of_stock")).length
          (buildNyceMap table) (buildGoogleMap ps)
          ((ps.filter (fun p => p.Availability = "out_of_stock")).map (fun p => p.Id))).skippedCount
        = ((ps.filter (fun p => p.Availability = "out_of_stock")).map (fun p => p.Id)).length
          - (((ps.filter (fun p => p.Availability = "out_of_stock")).map (fun p => p.Id)).filter
              (fun k => jsMapHas (buildNyceMap table) k)).length
    ∧ (∀ r, SEvent.result r ∈ fullModeTrace env →
        r.psid ∈ (ps.filter (fun p => p.Availability = "out_of_stock")).map (fun p => p.Id)
          ∧ jsMapHas (buildNyceMap table) r.psid = true) := by
  refine ⟨?_, ?_, ?_⟩
  · refine ⟨(runFullLoop env (ps.filter (fun p => p.Availability = "out_of_stock")).length
      (buildNyceMap table) (buildGoogleMap ps)
      ((ps.filter (fun p => p.Availability = "out_of_stock")).map (fun p => p.Id))).itemsWithUnallocatedStock, ?_⟩
    simp [fullModeTrace, hval, hn, hu, hf, ha, h6, h7]
  · rw [runFullLoop, fullLoop_skipped_count]
    simp only [Nat.zero_add]
    rw [enum_filter_snd_length (fun k => !(jsMapHas (buildNyceMap table) k))
      ((ps.filter (fun p => p.Availability = "out_of_stock")).map (fun p => p.Id))]
    have hsplit := length_filter_not_add
      (fun k => jsMapHas (buildNyceMap table) k)
      ((ps.filter (fun p => p.Availability = "out_of_stock")).map (fun p => p.Id))
    omega
  · intro r hr
    simp [fullModeTrace, hval, hn, hu, hf, ha, h6, h7] at hr
    rw [runFullLoop] at hr
    rcases fullLoop_result_mem env _ _ _ _ _ r hr with h1 | h2
    · exact absurd h1 (by simp)
    · refine ⟨?_, h2.2⟩
      have hmap : (((ps.filter (fun p => p.Availability = "out_of_stock")).map
          (fun p => p.Id)).enum).map (fun ip => ip.2)
          = (ps.filter (fun p => p.Availability = "out_of_stock")).map (fun p => p.Id) := by
        rw [List.enum]
        exact enumFrom_map_snd 0 _
      rw [hmap] at h2
      exact h2.1

/-- The feed used by the C7 witness run: three products, two of them
out of stock. -/
def summaryFeed : List GoogleFeedProduct :=
  [{ Id := "A", Availability := "out_of_stock", Title := "TA", Link := "LA" },
   { Id := "B", Availability := "out_of_stock", Title := "TB", Link := "LB" },
   { Id := "C", Availability := "in_stock", Title := "TC", Link := "LC" }]

/-- A successful full-mode environment for the C7 witness: two of three
feed items are out of stock and the NYCE table covers one of them. -/
def summaryEnv : FullEnv :=
  { psidsValid := true
    psids := []
    nyceCsvData := some [("A", ⟨5, 0⟩), ("X", ⟨1, 0⟩)]
    feedUrl := some "http://feed"
    feedFetch := .ok summaryFeed
    auth := .ok ()
    itemFluent := fun _ => .ok 2
    itemAuto := fun _ => .ok [] }

/-- Witness for C7: with 3 feed items, 2 not-sellable and 1 of those in
the NYCE table, the emitted summary carries overlapCount 1, and the
loop's skipped count is 2 - 1 = 1. -/
theorem full_mode_filter_and_summary_witness :
    ((summaryFeed.filter (fun p => p.Availability = "out_of_stock")).length ≠ 0)
    ∧ (∃ w, SEvent.summaryEv
        { totalGoogleFeedItems := 3, notSellableCount := 2, nyceCsvCount := 2,
          overlapCount := 1, itemsWithUnallocatedStock := w }
        ∈ fullModeTrace summaryEnv)
    ∧ (runFullLoop summaryEnv 2 (buildNyceMap [("A", ⟨5, 0⟩), ("X", ⟨1, 0⟩)])
        (buildGoogleMap summaryFeed) ["A", "B"]).skippedCount = 1 :=
  ⟨by decide,
   (full_mode_filter_and_summary summaryEnv _ summaryFeed "http://feed"
     rfl rfl rfl rfl rfl (by decide) (by decide)).1,
   (full_mode_filter_and_summary summaryEnv _ summaryFeed "http://feed"
     rfl rfl rfl rfl rfl (by decide) (by decide)).2.1⟩

end Aphlagersaldo
